import Mathlib

/-!
Shallow embedding of the core of the `conradludgate/spotify` Go client:
the 429 retry transport (`retryTransport.RoundTrip`, `retryDuration` in
`spotify.go`), the error decoder (`errorDecoder.ProcessResponse` in
`spotify.go`), the library batch-call validation (`libraryContains`,
`modifyLibrary` in `playlist.go`), and the pagination cursor from the
specification.  HTTP responses are modelled as records, the external HTTP
transport and JSON codec as function parameters, and durations as `Int`
nanoseconds (Go `time.Duration` is an `int64` count of nanoseconds).
-/

namespace Spotify

/-- Request model: the parts of an outbound HTTP request the embedded
operations construct (method, path segments from `http.Path`, query
parameters from `http.Param`). -/
structure Request where
  method : String
  path : List String
  queries : List (String × String)
deriving DecidableEq, Repr

/-- ReadResult is the outcome of `ioutil.ReadAll` on a response body:
either the body bytes (modelled as a string) or a transport read error. -/
inductive ReadResult where
  | ok (body : String)
  | fail (e : String)
deriving DecidableEq, Repr

/-- Response model: the parts of an HTTP response the embedded code reads.
`retryAfter` is the value of `Header.Get "Retry-After"` (Go returns the
empty string when the header is absent).  `bodyRead` is the outcome of
`ioutil.ReadAll` on the body. -/
structure Response where
  StatusCode : Nat
  retryAfter : String
  bodyRead : ReadResult
deriving DecidableEq, Repr

/-- Error represents an error returned by the Spotify Web API
(`spotify.go`, type `Error`): a message and the HTTP status code. -/
structure Error where
  Message : String
  Status : Int
deriving DecidableEq, Repr

/-- Outcome of one call of the wrapped transport `Base.RoundTrip`:
either a completed response or a transport-level error. -/
inductive Outcome where
  | resp (r : Response)
  | terr (e : String)
deriving DecidableEq, Repr

/-- defaultRetryDuration (`spotify.go`): `time.Second * 5`, in
nanoseconds. -/
def defaultRetryDuration : Int := 5 * 1000000000

/-- digitsToNat? converts a nonempty list of decimal digit characters to
its value; `none` if the list is empty or holds a non-digit. -/
def digitsToNat? (l : List Char) : Option Nat :=
  if l = [] then none
  else if l.all (fun c => c.isDigit) then
    some (l.foldl (fun a c => a * 10 + (c.toNat - 48)) 0)
  else none

/-- parseInt32 embeds Go `strconv.ParseInt(s, 10, 32)`: an optional sign
followed by at least one decimal digit, with the signed value required to
fit in 32 bits; every other input is an error (`none`). -/
def parseInt32 (s : String) : Option Int :=
  match s.data with
  | [] => none
  | c :: rest =>
    let p : Bool × List Char :=
      if c = '-' then (true, rest)
      else if c = '+' then (false, rest)
      else (false, c :: rest)
    match digitsToNat? p.2 with
    | none => none
    | some n =>
      let v : Int := if p.1 then -(n : Int) else (n : Int)
      if v < -(2 ^ 31) ∨ v > 2 ^ 31 - 1 then none else some v

/-- retryDuration (`spotify.go`): read the `Retry-After` header; when it
is absent or fails to parse as a 32-bit integer, fall back to
`defaultRetryDuration`, otherwise wait the parsed number of seconds
(converted to nanoseconds, as `time.Duration(seconds) * time.Second`). -/
def retryDuration (resp : Response) : Int :=
  let raw := resp.retryAfter
  if raw = "" then defaultRetryDuration
  else
    match parseInt32 raw with
    | none => defaultRetryDuration
    | some seconds => seconds * 1000000000

/-- roundTripAux embeds the loop of `retryTransport.RoundTrip`
(`spotify.go`): call the wrapped transport (`base`, indexed by the attempt
number `i`, always given the unchanged request `req`); on a transport
error or a non-429 response, stop; on a 429 response, sleep
`retryDuration` and resubmit.  The result records the trace of retried
attempts — each as (submitted request, 429 response received, sleep
duration before resubmitting) — and the final outcome; `none` when the
fuel runs out before the loop exits. -/
def roundTripAux (base : Request → Nat → Outcome) (req : Request) :
    Nat → Nat → Option (List (Request × Response × Int) × Outcome)
  | _, 0 => none
  | i, fuel + 1 =>
    match base req i with
    | .terr e => some ([], .terr e)
    | .resp r =>
      if r.StatusCode = 429 then
        match roundTripAux base req (i + 1) fuel with
        | none => none
        | some (tr, out) => some ((req, r, retryDuration r) :: tr, out)
      else some ([], .resp r)

/-- RoundTrip of the retry transport, started at attempt 0. -/
def roundTrip (base : Request → Nat → Outcome) (req : Request) (fuel : Nat) :
    Option (List (Request × Response × Int) × Outcome) :=
  roundTripAux base req 0 fuel

example :
    roundTripAux
      (fun _ i => if i = 0 then .resp ⟨429, "3", .ok ""⟩ else .resp ⟨200, "", .ok ""⟩)
      ⟨"GET", ["me"], []⟩ 0 3 =
    some ([(⟨"GET", ["me"], []⟩, ⟨429, "3", .ok ""⟩, 3000000000)],
      .resp ⟨200, "", .ok ""⟩) := by decide

example : retryDuration ⟨429, "", .ok ""⟩ = 5000000000 := by decide
example : retryDuration ⟨429, "x1", .ok ""⟩ = 5000000000 := by decide
example : retryDuration ⟨429, "-3", .ok ""⟩ = -3000000000 := by decide
example : retryDuration ⟨429, "2147483648", .ok ""⟩ = 5000000000 := by decide
example : retryDuration ⟨429, "2147483647", .ok ""⟩ = 2147483647000000000 := by decide

/-- statusText embeds the `http.StatusText` table (the standard HTTP
reason phrases keyed by status code; the empty string for unknown
codes). -/
def statusText (code : Nat) : String :=
  match code with
  | 100 => "Continue"
  | 101 => "Switching Protocols"
  | 102 => "Processing"
  | 103 => "Early Hints"
  | 200 => "OK"
  | 201 => "Created"
  | 202 => "Accepted"
  | 203 => "Non-Authoritative Information"
  | 204 => "No Content"
  | 205 => "Reset Content"
  | 206 => "Partial Content"
  | 207 => "Multi-Status"
  | 208 => "Already Reported"
  | 226 => "IM Used"
  | 300 => "Multiple Choices"
  | 301 => "Moved Permanently"
  | 302 => "Found"
  | 303 => "See Other"
  | 304 => "Not Modified"
  | 305 => "Use Proxy"
  | 307 => "Temporary Redirect"
  | 308 => "Permanent Redirect"
  | 400 => "Bad Request"
  | 401 => "Unauthorized"
  | 402 => "Payment Required"
  | 403 => "Forbidden"
  | 404 => "Not Found"
  | 405 => "Method Not Allowed"
  | 406 => "Not Acceptable"
  | 407 => "Proxy Authentication Required"
  | 408 => "Request Timeout"
  | 409 => "Conflict"
  | 410 => "Gone"
  | 411 => "Length Required"
  | 412 => "Precondition Failed"
  | 413 => "Request Entity Too Large"
  | 414 => "Request URI Too Long"
  | 415 => "Unsupported Media Type"
  | 416 => "Requested Range Not Satisfiable"
  | 417 => "Expectation Failed"
  | 418 => "I\x27m a teapot"
  | 421 => "Misdirected Request"
  | 422 => "Unprocessable Entity"
  | 423 => "Locked"
  | 424 => "Failed Dependency"
  | 425 => "Too Early"
  | 426 => "Upgrade Required"
  | 428 => "Precondition Required"
  | 429 => "Too Many Requests"
  | 431 => "Request Header Fields Too Large"
  | 451 => "Unavailable For Legal Reasons"
  | 500 => "Internal Server Error"
  | 501 => "Not Implemented"
  | 502 => "Bad Gateway"
  | 503 => "Service Unavailable"
  | 504 => "Gateway Timeout"
  | 505 => "HTTP Version Not Supported"
  | 506 => "Variant Also Negotiates"
  | 507 => "Insufficient Storage"
  | 508 => "Loop Detected"
  | 510 => "Not Extended"
  | 511 => "Network Authentication Required"
  | _ => ""

/-- statusTypeSuccess embeds `resp.StatusCode.Type() == http.StatusTypeSuccess`:
the status class is 2xx. -/
def statusTypeSuccess (code : Nat) : Bool :=
  code / 100 = 2

/-- ProcErr is the error value `errorDecoder.ProcessResponse` can return:
a propagated body-read error, a plain formatted error (`fmt.Errorf`), or
the structured Spotify `Error`. -/
inductive ProcErr where
  | readErr (e : String)
  | errMsg (m : String)
  | remote (e : Error)
deriving DecidableEq, Repr

/-- errMessage is the message surfaced by an error value: `Error.Error()`
returns `e.Message`, and the `fmt` errors return their format string. -/
def errMessage : ProcErr → String
  | .readErr e => e
  | .errMsg m => m
  | .remote e => e.Message

/-- ProcessResponse embeds `errorDecoder.ProcessResponse` (`spotify.go`).
The JSON codec is an external collaborator, passed as `decode`: it
returns the `error` field of the `{error: {message, status}}` envelope
when the body decodes, `none` when decoding fails.  The result is `none`
(Go `nil`) on success, `some` error otherwise. -/
def ProcessResponse (decode : String → Option Error) (resp : Response) :
    Option ProcErr :=
  if statusTypeSuccess resp.StatusCode then none
  else
    match resp.bodyRead with
    | .fail e => some (.readErr e)
    | .ok responseBody =>
      if responseBody.length = 0 then
        some (.errMsg ("spotify: HTTP " ++ toString resp.StatusCode ++ ": "
          ++ statusText resp.StatusCode ++ " (body empty)"))
      else
        match decode responseBody with
        | none =>
          some (.errMsg ("spotify: couldn\x27t decode error: ("
            ++ toString responseBody.length ++ ") [" ++ responseBody ++ "]"))
        | some e =>
          if e.Message = "" then
            some (.remote
              { Message := "spotify: unexpected HTTP " ++ toString resp.StatusCode
                  ++ ": " ++ statusText resp.StatusCode ++ " (empty error)"
                Status := e.Status })
          else some (.remote e)

example :
    ProcessResponse (fun _ => none) ⟨403, "", .ok ""⟩ =
      some (.errMsg "spotify: HTTP 403: Forbidden (body empty)") := by decide

example :
    ProcessResponse (fun _ => none) ⟨500, "", .ok "oops"⟩ =
      some (.errMsg "spotify: couldn\x27t decode error: (4) [oops]") := by decide

example :
    ProcessResponse (fun _ => some ⟨"", 404⟩) ⟨404, "", .ok "{}"⟩ =
      some (.remote ⟨"spotify: unexpected HTTP 404: Not Found (empty error)", 404⟩) := by
  decide

example : ProcessResponse (fun _ => none) ⟨204, "", .fail "boom"⟩ = none := by decide

/-- ApiResult is the outcome of a sent request as the endpoint functions
see it: a decoded value or an error. -/
inductive ApiResult (α : Type) where
  | ok (a : α)
  | fail (e : String)
deriving DecidableEq, Repr

/-- libraryContains embeds `Client.libraryContains` (`playlist.go`): with
0 or more than 50 IDs, return a validation error before any request is
sent; otherwise issue a GET to `me/<typ>/contains` with the
comma-joined IDs and decode a `[]bool`.  The network is the external
collaborator `send`; the first component of the result lists the
requests actually issued. -/
def libraryContains (send : Request → ApiResult (List Bool)) (typ : String)
    (ids : List String) : List Request × ApiResult (List Bool) :=
  if ids.length = 0 ∨ ids.length > 50 then
    ([], .fail "spotify: supports 1 to 50 IDs per call")
  else
    let req : Request :=
      ⟨"GET", ["me", typ, "contains"], [("ids", String.intercalate "," ids)]⟩
    match send req with
    | .fail e => ([req], .fail e)
    | .ok result => ([req], .ok result)

/-- modifyLibrary embeds `Client.modifyLibrary` (`playlist.go`): with 0 or
more than 50 IDs, return a validation error before any request is sent;
otherwise issue a PUT (when adding) or DELETE (when removing) to
`me/<typ>` with the comma-joined IDs. -/
def modifyLibrary (send : Request → ApiResult Unit) (typ : String) (add : Bool)
    (ids : List String) : List Request × ApiResult Unit :=
  if ids.length = 0 ∨ ids.length > 50 then
    ([], .fail "spotify: this call supports 1 to 50 IDs per call")
  else
    let mtd := if add then "PUT" else "DELETE"
    let req : Request := ⟨mtd, ["me", typ], [("ids", String.intercalate "," ids)]⟩
    match send req with
    | .fail e => ([req], .fail e)
    | .ok _ => ([req], .ok ())

example :
    libraryContains (fun _ => .ok [true]) "tracks" [] =
      ([], .fail "spotify: supports 1 to 50 IDs per call") := by decide

example :
    libraryContains (fun _ => .ok [true]) "tracks" ["a"] =
      ([⟨"GET", ["me", "tracks", "contains"], [("ids", "a")]⟩], .ok [true]) := by decide

/-- Page models the spec data model `Page<T>`: items, total, limit,
offset, and optional previous/next endpoint URLs. -/
structure Page (α : Type) where
  items : List α
  total : Nat
  limit : Nat
  offset : Nat
  previousEndpoint : Option String
  nextEndpoint : Option String
deriving DecidableEq, Repr

/-- Modelled from the spec: the pagination cursor operation `advance`
(section 4.3; the source file defining the page type and the next-page
operation is not among the provided sources).  When `page.nextEndpoint`
is absent, fail with a "no more pages" condition without any network
call; otherwise issue a GET against `nextEndpoint` (the external network
is `get`) and return the new decoded page.  The first component of the
result lists the URLs actually fetched. -/
def advance {α : Type} (get : String → ApiResult (Page α)) (page : Page α) :
    List String × ApiResult (Page α) :=
  match page.nextEndpoint with
  | none => ([], .fail "spotify: no more pages")
  | some url =>
    match get url with
    | .fail e => ([url], .fail e)
    | .ok p => ([url], .ok p)

example :
    advance (fun _ => .ok (⟨([] : List Nat), 0, 0, 0, none, none⟩ : Page Nat))
      ⟨[1], 1, 1, 0, none, none⟩ =
      ([], .fail "spotify: no more pages") := by decide

/-- containsStr s sub holds when `sub` occurs contiguously inside `s`. -/
def containsStr (s sub : String) : Prop :=
  ∃ a b : String, s = a ++ (sub ++ b)

/-- Helper lemmas about string append used by the theorems below. -/
theorem strAppend_assoc (a b c : String) : a ++ b ++ c = a ++ (b ++ c) := by
  cases a with | mk la =>
  cases b with | mk lb =>
  cases c with | mk lc =>
  show String.mk (la ++ lb ++ lc) = String.mk (la ++ (lb ++ lc))
  rw [List.append_assoc]

theorem strAppend_ne_empty (a b : String) (h : a.data ≠ []) : a ++ b ≠ "" := by
  cases a with | mk la =>
  cases b with | mk lb =>
  intro hc
  apply h
  have h2 : la ++ lb = [] := congrArg String.data hc
  exact (List.append_eq_nil.mp h2).1

theorem digitsToNat?_ne_nil {l : List Char} {n : Nat} (h : digitsToNat? l = some n) :
    l ≠ [] := by
  intro hl
  rw [hl] at h
  simp [digitsToNat?] at h

theorem digitsToNat?_all_digits {l : List Char} {n : Nat} (h : digitsToNat? l = some n) :
    l.all (fun c => c.isDigit) = true := by
  unfold digitsToNat? at h
  split at h
  · exact absurd h (by simp)
  · split at h
    · assumption
    · exact absurd h (by simp)

theorem digitsToNat?_val {l : List Char} {n : Nat} (h : digitsToNat? l = some n) :
    l.foldl (fun a c => a * 10 + (c.toNat - 48)) 0 = n := by
  unfold digitsToNat? at h
  split at h
  · exact absurd h (by simp)
  · split at h
    · exact Option.some.inj h
    · exact absurd h (by simp)

/-- parseInt32 on an unsigned digit string whose value exceeds the 32-bit
range fails, as Go `strconv.ParseInt(s, 10, 32)` returns a range error. -/
theorem parseInt32_overflow (s : String) (n : Nat)
    (h1 : digitsToNat? s.data = some n) (h2 : 2 ^ 31 ≤ n) :
    parseInt32 s = none := by
  unfold parseInt32
  cases hd : s.data with
  | nil =>
    rw [hd] at h1
  | cons c rest =>
    rw [hd] at h1
    have hdig : c.isDigit = true := by
      have := digitsToNat?_all_digits h1
      simp [List.all_cons] at this
      exact this.1
    have hcm : c ≠ '-' := by
      intro hc
      rw [hc] at hdig
      exact absurd hdig (by decide)
    have hcp : c ≠ '+' := by
      intro hc
      rw [hc] at hdig
      exact absurd hdig (by decide)
    simp only [if_neg hcm, if_neg hcp]
    rw [h1]
    have h2' : 2147483648 ≤ n :=
      calc (2147483648 : Nat) = 2 ^ 31 := by norm_num
        _ ≤ n := h2
    simp
    omega

theorem retryDuration_of_parse (resp : Response) (n : Int)
    (h : parseInt32 resp.retryAfter = some n) :
    retryDuration resp = n * 1000000000 := by
  unfold retryDuration
  have he : resp.retryAfter ≠ "" := by
    intro hc
    rw [hc] at h
    have hn : parseInt32 "" = none := by decide
    rw [hn] at h
    exact Option.noConfusion h
  rw [if_neg he, h]

/-- C10: a 429 response whose `Retry-After` header is a decimal integer
too large for the signed 32-bit range is parsed with a 32-bit width, so
the parse fails and the computed wait is the 5-second fallback, not the
stated number of seconds. -/
theorem retryAfter_overflow_uses_fallback (resp : Response) (n : Nat)
    (h1 : digitsToNat? resp.retryAfter.data = some n) (h2 : 2 ^ 31 ≤ n) :
    retryDuration resp = defaultRetryDuration := by
  unfold retryDuration
  have he : resp.retryAfter ≠ "" := by
    intro hc
    exact digitsToNat?_ne_nil h1 (by rw [hc])
  rw [if_neg he, parseInt32_overflow _ n h1 h2]

/-- Witness for C10 at the concrete header value "2147483648". -/
theorem retryAfter_overflow_witness :
    retryDuration ⟨429, "2147483648", .ok ""⟩ = defaultRetryDuration :=
  retryAfter_overflow_uses_fallback ⟨429, "2147483648", .ok ""⟩ 2147483648
    (by decide) (by norm_num)

/-- C2 counterexample: a `Retry-After` header of "-3" parses successfully
as a (negative) 32-bit integer, so the wait used is -3 seconds, not the
5-second fallback the claim states for all non-non-negative headers. -/
theorem retryAfter_negative_not_fallback :
    retryDuration ⟨429, "-3", .ok ""⟩ = -3000000000 ∧
    defaultRetryDuration = 5000000000 ∧
    retryDuration ⟨429, "-3", .ok ""⟩ ≠ defaultRetryDuration := by decide

/-- C2 (amended): whenever the `Retry-After` header is absent or fails to
parse as a signed 32-bit integer (non-numeric or out of range), the wait
is exactly the 5-second fallback; a header that parses as a negative
integer n instead yields a wait of n seconds (a non-positive duration),
not the fallback. -/
theorem retryAfter_invalid_uses_fallback (resp : Response) :
    ((resp.retryAfter = "" ∨ parseInt32 resp.retryAfter = none) →
      retryDuration resp = defaultRetryDuration) ∧
    (∀ n : Int, parseInt32 resp.retryAfter = some n → n < 0 →
      retryDuration resp = n * 1000000000) := by
  constructor
  · intro h
    unfold retryDuration
    by_cases he : resp.retryAfter = ""
    · rw [if_pos he]
    · rcases h with h | h
      · exact absurd h he
      · rw [if_neg he, h]
  · intro n hp _
    exact retryDuration_of_parse resp n hp

/-- Witness for C2 (amended) at the header values "abc" and "-3". -/
theorem retryAfter_invalid_witness :
    retryDuration ⟨429, "abc", .ok ""⟩ = defaultRetryDuration ∧
    retryDuration ⟨429, "-3", .ok ""⟩ = (-3 : Int) * 1000000000 :=
  ⟨(retryAfter_invalid_uses_fallback ⟨429, "abc", .ok ""⟩).1 (Or.inr (by decide)),
   (retryAfter_invalid_uses_fallback ⟨429, "-3", .ok ""⟩).2 (-3) (by decide) (by decide)⟩

/-- C9: the error decoder decides success versus failure purely from the
status-code class — its result is `nil` exactly when the status is 2xx,
for every body and every behaviour of the JSON codec — and on success it
produces no error (the response passes through unchanged). -/
theorem errorDecoder_success_iff (decode : String → Option Error) (resp : Response) :
    ProcessResponse decode resp = none ↔ statusTypeSuccess resp.StatusCode = true := by
  by_cases h : statusTypeSuccess resp.StatusCode = true
  · simp [ProcessResponse, h]
  · cases hb : resp.bodyRead with
    | fail e => simp [ProcessResponse, h, hb]
    | ok body =>
      by_cases hl : body.length = 0
      · simp [ProcessResponse, h, hb, hl]
      · cases hdec : decode body with
        | none => simp [ProcessResponse, h, hb, hl, hdec]
        | some en =>
          by_cases hm : en.Message = ""
          · simp [ProcessResponse, h, hb, hl, hdec, hm]
          · simp [ProcessResponse, h, hb, hl, hdec, hm]

theorem strLength_zero_iff (s : String) : s.length = 0 ↔ s = "" := by
  cases s with | mk l =>
  constructor
  · intro h
    have hl : l = [] := List.length_eq_zero.mp h
    rw [hl]
  · intro h
    have hl : l = [] := congrArg String.data h
    simp [String.length, hl]

theorem processResponse_isSome (decode : String → Option Error) (resp : Response)
    (h : statusTypeSuccess resp.StatusCode = false) :
    ∃ pe, ProcessResponse decode resp = some pe := by
  cases hb : resp.bodyRead with
  | fail e => exact ⟨.readErr e, by simp [ProcessResponse, h, hb]⟩
  | ok body =>
    by_cases hl : body.length = 0
    · exact ⟨.errMsg ("spotify: HTTP " ++ toString resp.StatusCode ++ ": "
        ++ statusText resp.StatusCode ++ " (body empty)"),
        by simp [ProcessResponse, h, hb, hl]⟩
    · cases hdec : decode body with
      | none =>
        exact ⟨.errMsg ("spotify: couldn\x27t decode error: ("
          ++ toString body.length ++ ") [" ++ body ++ "]"),
          by simp [ProcessResponse, h, hb, hl, hdec]⟩
      | some en =>
        by_cases hm : en.Message = ""
        · exact ⟨.remote
            { Message := "spotify: unexpected HTTP " ++ toString resp.StatusCode
                ++ ": " ++ statusText resp.StatusCode ++ " (empty error)"
              Status := en.Status },
            by simp [ProcessResponse, h, hb, hl, hdec, hm]⟩
        · exact ⟨.remote en, by simp [ProcessResponse, h, hb, hl, hdec, hm]⟩

/-- C1: every retried attempt recorded by the retry transport submitted
exactly the original request, was a 429 response, and when its
`Retry-After` header parses as a non-negative integer n the sleep before
resubmitting is exactly n seconds (in nanoseconds) — in particular at
least n seconds. -/
theorem retryPolicy_waits_and_resubmits (base : Request → Nat → Outcome)
    (req : Request) (i fuel : Nat) (tr : List (Request × Response × Int))
    (out : Outcome) (h : roundTripAux base req i fuel = some (tr, out)) :
    ∀ q r d, (q, r, d) ∈ tr →
      q = req ∧ r.StatusCode = 429 ∧
      ∀ n : Int, parseInt32 r.retryAfter = some n → 0 ≤ n →
        d = n * 1000000000 ∧ n * 1000000000 ≤ d := by
  induction fuel generalizing i tr out with
  | zero => simp [roundTripAux] at h
  | succ f ih =>
    intro q r d hm
    cases hb : base req i with
    | terr e =>
      simp [roundTripAux, hb] at h
      rw [h.1] at hm
      simp at hm
    | resp rr =>
      by_cases h429 : rr.StatusCode = 429
      · cases hrec : roundTripAux base req (i + 1) f with
        | none => simp [roundTripAux, hb, h429, hrec] at h
        | some pr =>
          obtain ⟨tr', out'⟩ := pr
          simp [roundTripAux, hb, h429, hrec] at h
          rw [← h.1] at hm
          rcases List.mem_cons.mp hm with hhead | htail
          · obtain ⟨hq, hr, hd⟩ : q = req ∧ r = rr ∧ d = retryDuration rr := by
              simpa [Prod.ext_iff] using hhead
            subst hq
            subst hr
            subst hd
            refine ⟨rfl, h429, ?_⟩
            intro n hp _
            rw [retryDuration_of_parse r n hp]
            exact ⟨rfl, le_refl _⟩
          · exact ih (i + 1) tr' out' hrec q r d htail
      · simp [roundTripAux, hb, h429] at h
        rw [h.1] at hm
        simp at hm

/-- Witness for C1 at a concrete transport that answers one 429 carrying
`Retry-After: 3` and then a 200. -/
theorem retryPolicy_waits_witness :
    (⟨"GET", ["me"], []⟩ : Request) = ⟨"GET", ["me"], []⟩ ∧
    (⟨429, "3", .ok ""⟩ : Response).StatusCode = 429 ∧
    ((3000000000 : Int) = 3 * 1000000000 ∧ (3 : Int) * 1000000000 ≤ 3000000000) := by
  have h := retryPolicy_waits_and_resubmits
    (fun _ i => if i = 0 then .resp ⟨429, "3", .ok ""⟩ else .resp ⟨200, "", .ok ""⟩)
    ⟨"GET", ["me"], []⟩ 0 3
    [(⟨"GET", ["me"], []⟩, ⟨429, "3", .ok ""⟩, 3000000000)]
    (.resp ⟨200, "", .ok ""⟩) (by decide)
    ⟨"GET", ["me"], []⟩ ⟨429, "3", .ok ""⟩ 3000000000 (by simp)
  exact ⟨h.1, h.2.1, h.2.2 3 (by decide) (by decide)⟩

/-- C3: a transport-level error is returned unchanged after a single
attempt with no retry; a completed response that is neither 2xx nor 429
is returned after a single attempt with no retry, and the error decoder
produces exactly one error for it — when the body decodes as a
structured envelope with a non-empty message, that error is the
structured envelope error itself, carrying its status and message. -/
theorem non429_single_error_no_retry (base : Request → Nat → Outcome)
    (req : Request) (fuel : Nat) (decode : String → Option Error)
    (e : String) (r : Response) :
    (base req 0 = .terr e →
      roundTrip base req (fuel + 1) = some ([], .terr e)) ∧
    (base req 0 = .resp r → statusTypeSuccess r.StatusCode = false →
      r.StatusCode ≠ 429 →
      roundTrip base req (fuel + 1) = some ([], .resp r) ∧
      (∃ pe, ProcessResponse decode r = some pe) ∧
      (∀ body en, r.bodyRead = .ok body → ¬body.length = 0 → decode body = some en →
        ¬en.Message = "" → ProcessResponse decode r = some (.remote en))) := by
  constructor
  · intro hb
    simp [roundTrip, roundTripAux, hb]
  · intro hb hs h429
    refine ⟨by simp [roundTrip, roundTripAux, hb, h429],
      processResponse_isSome decode r hs, ?_⟩
    intro body en hbody hlen hdec hmsg
    simp [ProcessResponse, hs, hbody, hlen, hdec, hmsg]

/-- Witness for C3 at a concrete transport error and a concrete 403
response whose body decodes with a non-empty message. -/
theorem non429_single_error_witness :
    roundTrip (fun _ _ => Outcome.terr "conn reset") ⟨"GET", ["y"], []⟩ 1 =
      some ([], .terr "conn reset") ∧
    roundTrip (fun _ _ => Outcome.resp ⟨403, "", .ok "x"⟩) ⟨"GET", ["y"], []⟩ 1 =
      some ([], .resp ⟨403, "", .ok "x"⟩) ∧
    (∃ pe, ProcessResponse (fun _ => some ⟨"forbidden", 403⟩) ⟨403, "", .ok "x"⟩ =
      some pe) ∧
    ProcessResponse (fun _ => some ⟨"forbidden", 403⟩) ⟨403, "", .ok "x"⟩ =
      some (.remote ⟨"forbidden", 403⟩) := by
  have h1 := (non429_single_error_no_retry (fun _ _ => Outcome.terr "conn reset")
    ⟨"GET", ["y"], []⟩ 0 (fun _ => none) "conn reset" ⟨0, "", .ok ""⟩).1 rfl
  have h2 := (non429_single_error_no_retry (fun _ _ => Outcome.resp ⟨403, "", .ok "x"⟩)
    ⟨"GET", ["y"], []⟩ 0 (fun _ => some ⟨"forbidden", 403⟩) ""
    ⟨403, "", .ok "x"⟩).2 rfl (by decide) (by decide)
  exact ⟨h1, h2.1, h2.2.1,
    h2.2.2 "x" ⟨"forbidden", 403⟩ rfl (by decide) rfl (by decide)⟩

theorem strConcat5_ne_empty (p a b c d : String) (h : p.data ≠ []) :
    p ++ a ++ b ++ c ++ d ≠ "" := by
  simp only [strAppend_assoc]
  exact strAppend_ne_empty _ _ h

/-- C4: for every failure response whose body was read, the error decoder
produces an error with a non-empty message; and when the body decodes as
an envelope whose message field is empty, the produced error is the
structured error with a synthesized message embedding the status code
and its reason phrase. -/
theorem errorDecoder_nonempty_message (decode : String → Option Error)
    (resp : Response) (body : String)
    (h1 : statusTypeSuccess resp.StatusCode = false)
    (h2 : resp.bodyRead = .ok body) :
    ∃ pe, ProcessResponse decode resp = some pe ∧ errMessage pe ≠ "" ∧
      (¬body = "" → ∀ en, decode body = some en → en.Message = "" →
        pe = .remote ⟨"spotify: unexpected HTTP " ++ toString resp.StatusCode
          ++ ": " ++ statusText resp.StatusCode ++ " (empty error)", en.Status⟩) := by
  by_cases hl : body.length = 0
  · have hbe : body = "" := (strLength_zero_iff body).mp hl
    refine ⟨.errMsg ("spotify: HTTP " ++ toString resp.StatusCode ++ ": "
      ++ statusText resp.StatusCode ++ " (body empty)"),
      by simp [ProcessResponse, h1, h2, hl], ?_, fun hne => absurd hbe hne⟩
    exact strConcat5_ne_empty "spotify: HTTP " _ _ _ _ (by decide)
  · cases hdec : decode body with
    | none =>
      refine ⟨.errMsg ("spotify: couldn\x27t decode error: ("
        ++ toString body.length ++ ") [" ++ body ++ "]"),
        by simp [ProcessResponse, h1, h2, hl, hdec], ?_, ?_⟩
      · exact strConcat5_ne_empty "spotify: couldn\x27t decode error: (" _ _ _ _ (by decide)
      · intro _ en hen
        exact absurd hen (by simp)
    | some en =>
      by_cases hm : en.Message = ""
      · refine ⟨.remote ⟨"spotify: unexpected HTTP " ++ toString resp.StatusCode
          ++ ": " ++ statusText resp.StatusCode ++ " (empty error)", en.Status⟩,
          by simp [ProcessResponse, h1, h2, hl, hdec, hm], ?_, ?_⟩
        · exact strConcat5_ne_empty "spotify: unexpected HTTP " _ _ _ _ (by decide)
        · intro _ en' hen' _
          have he : en' = en := (Option.some.inj hen').symm
          rw [he]
      · refine ⟨.remote en, by simp [ProcessResponse, h1, h2, hl, hdec, hm], hm, ?_⟩
        intro _ en' hen' hm'
        have he : en' = en := (Option.some.inj hen').symm
        rw [he] at hm'
        exact absurd hm' hm

/-- Witness for C4 at a concrete 404 response whose body decodes with an
empty message field. -/
theorem errorDecoder_nonempty_message_witness :
    ∃ pe, ProcessResponse (fun _ => some ⟨"", 404⟩) ⟨404, "", .ok "z"⟩ = some pe ∧
      errMessage pe ≠ "" ∧
      (¬"z" = "" → ∀ en, (fun _ => some (⟨"", 404⟩ : Error)) "z" = some en →
        en.Message = "" →
        pe = .remote ⟨"spotify: unexpected HTTP 404: Not Found (empty error)",
          en.Status⟩) :=
  errorDecoder_nonempty_message (fun _ => some ⟨"", 404⟩) ⟨404, "", .ok "z"⟩ "z"
    (by decide) rfl

/-- C5: for every failure response with an empty body, the error decoder
synthesizes an error whose message contains the numeric status code and
its standard reason phrase. -/
theorem errorDecoder_empty_body_message (decode : String → Option Error)
    (resp : Response)
    (h1 : statusTypeSuccess resp.StatusCode = false)
    (h2 : resp.bodyRead = .ok "") :
    ProcessResponse decode resp = some (.errMsg
      ("spotify: HTTP " ++ toString resp.StatusCode ++ ": "
        ++ statusText resp.StatusCode ++ " (body empty)")) ∧
    containsStr ("spotify: HTTP " ++ toString resp.StatusCode ++ ": "
        ++ statusText resp.StatusCode ++ " (body empty)") (toString resp.StatusCode) ∧
    containsStr ("spotify: HTTP " ++ toString resp.StatusCode ++ ": "
        ++ statusText resp.StatusCode ++ " (body empty)") (statusText resp.StatusCode) := by
  refine ⟨by simp [ProcessResponse, h1, h2], ?_, ?_⟩
  · exact ⟨"spotify: HTTP ",
      ": " ++ (statusText resp.StatusCode ++ " (body empty)"),
      by simp [strAppend_assoc]⟩
  · exact ⟨"spotify: HTTP " ++ (toString resp.StatusCode ++ ": "),
      " (body empty)", by simp [strAppend_assoc]⟩

/-- Witness for C5 at a concrete empty-body 403 response: the message
contains "403" and "Forbidden". -/
theorem errorDecoder_empty_body_witness :
    ProcessResponse (fun _ => none) ⟨403, "", .ok ""⟩ =
      some (.errMsg "spotify: HTTP 403: Forbidden (body empty)") ∧
    containsStr "spotify: HTTP 403: Forbidden (body empty)" "403" ∧
    containsStr "spotify: HTTP 403: Forbidden (body empty)" "Forbidden" :=
  errorDecoder_empty_body_message (fun _ => none) ⟨403, "", .ok ""⟩ (by decide) rfl

/-- C6: for every failure response with a non-empty body that the JSON
codec cannot decode as the error envelope, the error decoder synthesizes
an error whose message embeds the raw body length and the full,
untruncated body bytes. -/
theorem errorDecoder_undecodable_body (decode : String → Option Error)
    (resp : Response) (body : String)
    (h1 : statusTypeSuccess resp.StatusCode = false)
    (h2 : resp.bodyRead = .ok body) (h3 : ¬body = "") (h4 : decode body = none) :
    ProcessResponse decode resp = some (.errMsg
      ("spotify: couldn\x27t decode error: (" ++ toString body.length
        ++ ") [" ++ body ++ "]")) ∧
    containsStr ("spotify: couldn\x27t decode error: (" ++ toString body.length
        ++ ") [" ++ body ++ "]") (toString body.length) ∧
    containsStr ("spotify: couldn\x27t decode error: (" ++ toString body.length
        ++ ") [" ++ body ++ "]") body := by
  have hl : ¬body.length = 0 := fun hc => h3 ((strLength_zero_iff body).mp hc)
  refine ⟨by simp [ProcessResponse, h1, h2, hl, h4], ?_, ?_⟩
  · exact ⟨"spotify: couldn\x27t decode error: (", ") [" ++ (body ++ "]"),
      by simp [strAppend_assoc]⟩
  · exact ⟨"spotify: couldn\x27t decode error: (" ++ (toString body.length ++ ") ["),
      "]", by simp [strAppend_assoc]⟩

/-- Witness for C6 at a concrete 500 response with the undecodable body
"oops": the message embeds the length 4 and the body itself. -/
theorem errorDecoder_undecodable_body_witness :
    ProcessResponse (fun _ => none) ⟨500, "", .ok "oops"⟩ =
      some (.errMsg "spotify: couldn\x27t decode error: (4) [oops]") ∧
    containsStr "spotify: couldn\x27t decode error: (4) [oops]" "4" ∧
    containsStr "spotify: couldn\x27t decode error: (4) [oops]" "oops" :=
  errorDecoder_undecodable_body (fun _ => none) ⟨500, "", .ok "oops"⟩ "oops"
    (by decide) rfl (by decide) rfl

/-- C7: a library batch call (containment check, or add/remove with
`add` selecting PUT versus DELETE) with 0 IDs or more than 50 IDs fails
validation locally, issuing no network request; with 1 to 50 IDs it
issues exactly one request, to `me/<typ>/contains` resp. `me/<typ>`,
carrying the comma-joined IDs. -/
theorem libraryBatch_validation (sendC : Request → ApiResult (List Bool))
    (sendM : Request → ApiResult Unit) (typ : String) (add : Bool)
    (ids : List String) :
    ((ids.length = 0 ∨ ids.length > 50) →
      libraryContains sendC typ ids =
        ([], .fail "spotify: supports 1 to 50 IDs per call") ∧
      modifyLibrary sendM typ add ids =
        ([], .fail "spotify: this call supports 1 to 50 IDs per call")) ∧
    (1 ≤ ids.length → ids.length ≤ 50 →
      (libraryContains sendC typ ids).1 =
        [⟨"GET", ["me", typ, "contains"], [("ids", String.intercalate "," ids)]⟩] ∧
      (modifyLibrary sendM typ add ids).1 =
        [⟨if add then "PUT" else "DELETE", ["me", typ],
          [("ids", String.intercalate "," ids)]⟩]) := by
  constructor
  · intro h
    have h' : ids = [] ∨ 50 < ids.length := by
      rcases h with h | h
      · exact Or.inl (List.length_eq_zero.mp h)
      · exact Or.inr h
    constructor
    · simp [libraryContains, h']
    · simp [modifyLibrary, h']
  · intro hlo hhi
    have h' : ¬(ids = [] ∨ 50 < ids.length) := by
      rintro (hc | hc)
      · rw [hc] at hlo
        exact absurd hlo (by decide)
      · omega
    constructor
    · cases hs : sendC ⟨"GET", ["me", typ, "contains"],
        [("ids", String.intercalate "," ids)]⟩ <;>
        simp [libraryContains, h', hs]
    · cases hs : sendM ⟨if add then "PUT" else "DELETE", ["me", typ],
        [("ids", String.intercalate "," ids)]⟩ <;>
        simp [modifyLibrary, h', hs]

/-- Witness for C7 at 0-ID, 51-ID, 1-ID and 50-ID concrete calls. -/
theorem libraryBatch_validation_witness :
    (libraryContains (fun _ => .ok []) "tracks" [] =
      ([], .fail "spotify: supports 1 to 50 IDs per call") ∧
     modifyLibrary (fun _ => .ok ()) "tracks" true [] =
      ([], .fail "spotify: this call supports 1 to 50 IDs per call")) ∧
    (libraryContains (fun _ => .ok []) "tracks" (List.replicate 51 "a") =
      ([], .fail "spotify: supports 1 to 50 IDs per call") ∧
     modifyLibrary (fun _ => .ok ()) "tracks" true (List.replicate 51 "a") =
      ([], .fail "spotify: this call supports 1 to 50 IDs per call")) ∧
    ((libraryContains (fun _ => .ok []) "tracks" ["a"]).1 =
      [⟨"GET", ["me", "tracks", "contains"], [("ids", "a")]⟩] ∧
     (modifyLibrary (fun _ => .ok ()) "tracks" true ["a"]).1 =
      [⟨"PUT", ["me", "tracks"], [("ids", "a")]⟩]) ∧
    ((libraryContains (fun _ => .ok []) "tracks" (List.replicate 50 "a")).1 =
      [⟨"GET", ["me", "tracks", "contains"],
        [("ids", String.intercalate "," (List.replicate 50 "a"))]⟩] ∧
     (modifyLibrary (fun _ => .ok ()) "tracks" true (List.replicate 50 "a")).1 =
      [⟨"PUT", ["me", "tracks"],
        [("ids", String.intercalate "," (List.replicate 50 "a"))]⟩]) := by
  refine ⟨?_, ?_, ?_, ?_⟩
  · exact (libraryBatch_validation (fun _ => .ok []) (fun _ => .ok ()) "tracks"
      true []).1 (by decide)
  · exact (libraryBatch_validation (fun _ => .ok []) (fun _ => .ok ()) "tracks"
      true (List.replicate 51 "a")).1 (by decide)
  · exact (libraryBatch_validation (fun _ => .ok []) (fun _ => .ok ()) "tracks"
      true ["a"]).2 (by decide) (by decide)
  · exact (libraryBatch_validation (fun _ => .ok []) (fun _ => .ok ()) "tracks"
      true (List.replicate 50 "a")).2 (by decide) (by decide)

/-- C8, settled against the spec-modelled cursor: advancing a page with
no next endpoint fails with the "no more pages" condition and performs
no network call; advancing a page whose next endpoint is present issues
one GET against exactly that endpoint, and returns the decoded new page
when the fetch succeeds. -/
theorem advance_paging (α : Type) (get : String → ApiResult (Page α))
    (page : Page α) (url : String) :
    (page.nextEndpoint = none →
      advance get page = ([], .fail "spotify: no more pages")) ∧
    (page.nextEndpoint = some url →
      (advance get page).1 = [url] ∧
      ∀ p, get url = .ok p → advance get page = ([url], .ok p)) := by
  constructor
  · intro h
    simp [advance, h]
  · intro h
    constructor
    · cases hg : get url <;> simp [advance, h, hg]
    · intro p hp
      simp [advance, h, hp]

/-- Witness for C8 at a concrete two-page dataset. -/
theorem advance_paging_witness :
    advance (fun _ => .ok (⟨[2], 2, 1, 1, none, none⟩ : Page Nat))
      ⟨[1], 2, 1, 0, none, none⟩ = ([], .fail "spotify: no more pages") ∧
    (advance (fun _ => .ok (⟨[2], 2, 1, 1, none, none⟩ : Page Nat))
      ⟨[1], 2, 1, 0, none, some "u"⟩).1 = ["u"] ∧
    advance (fun _ => .ok (⟨[2], 2, 1, 1, none, none⟩ : Page Nat))
      ⟨[1], 2, 1, 0, none, some "u"⟩ = (["u"], .ok ⟨[2], 2, 1, 1, none, none⟩) := by
  have h1 := (advance_paging Nat (fun _ => .ok ⟨[2], 2, 1, 1, none, none⟩)
    ⟨[1], 2, 1, 0, none, none⟩ "u").1 rfl
  have h2 := (advance_paging Nat (fun _ => .ok ⟨[2], 2, 1, 1, none, none⟩)
    ⟨[1], 2, 1, 0, none, some "u"⟩ "u").2 rfl
  exact ⟨h1, h2.1, h2.2 _ rfl⟩

end Spotify
